import Mathlib

/-!
Shallow embedding of the `hackerone_parser` repository (src/db.py,
src/data_manager.py, src/graphql_requests.py, src/main.py).

Python JSON-decoded values are modelled by the inductive `Json`
(JSON numbers are modelled as integers, which covers every value the
claims touch).  Python exceptions are modelled by `Except PyErr`;
`try/except` blocks become explicit matches on the `Except` value.
The SQLite database file is modelled by the `DB` structure: each table
is a list of rows, `AUTOINCREMENT` ids are the `next…Id` counters, and
the `CURRENT_TIMESTAMP` default is a strictly monotone insertion
counter `clock` (one tick per insert).  `TEXT` columns that hold
`json.dumps` output are modelled structurally by the serialized value
itself (`json.dumps` is injective on these values, and no code path
inspects the serialized text).
-/

/-- Python exception kinds that the embedded code can raise.  `dbError`
covers `sqlite3.IntegrityError` (NOT NULL violations) and
`InterfaceError` (binding a list/dict parameter). -/
inductive PyErr where
  | typeError
  | keyError
  | attributeError
  | dbError
  deriving DecidableEq

/-- JSON values as decoded by Python (`response.json()`): `null` is
Python `None`, objects are dicts, arrays are lists. -/
inductive Json where
  | null
  | bool (b : Bool)
  | num (n : Int)
  | str (s : String)
  | arr (elems : List Json)
  | obj (fields : List (String × Json))

mutual

def Json.beq : Json → Json → Bool
  | .null, .null => true
  | .bool a, .bool b => a == b
  | .num a, .num b => a == b
  | .str a, .str b => a == b
  | .arr a, .arr b => Json.beqArr a b
  | .obj a, .obj b => Json.beqObj a b
  | _, _ => false

def Json.beqArr : List Json → List Json → Bool
  | [], [] => true
  | a :: as, b :: bs => Json.beq a b && Json.beqArr as bs
  | _, _ => false

def Json.beqObj : List (String × Json) → List (String × Json) → Bool
  | [], [] => true
  | (k, v) :: as, (l, w) :: bs => k == l && Json.beq v w && Json.beqObj as bs
  | _, _ => false

end

instance : BEq Json := ⟨Json.beq⟩

/-- Python truthiness (`bool(x)`) for JSON-decoded values. -/
def Json.isTruthy : Json → Bool
  | .null => false
  | .bool b => b
  | .num n => n != 0
  | .str s => !(s == "")
  | .arr elems => !elems.isEmpty
  | .obj fields => !fields.isEmpty

/-- Whether a value can be bound as a sqlite3 query parameter:
`None`, booleans, numbers and strings bind; lists and dicts raise
`InterfaceError`. -/
def Json.bindable : Json → Bool
  | .arr _ => false
  | .obj _ => false
  | _ => true

/-- Python `dict.get(k, dflt)` on a decoded JSON object (first binding
wins, as in a Python dict). -/
def Json.dictGetD (fields : List (String × Json)) (k : String) (dflt : Json) : Json :=
  match fields.find? (fun kv => kv.1 == k) with
  | some kv => kv.2
  | none => dflt

/-- Python subscription `x[k]` with a string key: `KeyError` when the
key is missing from a dict, `TypeError` when `x` is not a dict
(in particular when `x` is `None`). -/
def Json.subscript (j : Json) (k : String) : Except PyErr Json :=
  match j with
  | .obj fields =>
    match fields.find? (fun kv => kv.1 == k) with
    | some kv => .ok kv.2
    | none => .error .keyError
  | _ => .error .typeError

/-- Dataclass `PrimaryData` (src/db.py lines 10-32): one staged raw
node.  `created_at` is the store-assigned timestamp, modelled by the
insertion counter. -/
structure PrimaryData where
  id : Option Nat
  username : Json
  source : Json
  json_info : Json
  created_at : Option Nat := none

/-- Dataclass `FinallyData` (src/db.py lines 34-101): one profile
snapshot.  Field types are `Json` because the Python dataclass performs
no runtime checking; the defaults mirror the dataclass defaults
(`false` for `profileActivated`/`cleared`/`verified`/
`mark_as_company_on_leaderboards`, `None` for `open_for_employment` and
the other optional scalars, `0` for the two counts, `[]` for the two
sequence fields, `""` for `username`). -/
structure FinallyData where
  id : Option Nat := none
  username : Json := .str ""
  name : Json := .null
  intro : Json := .null
  profileActivated : Json := .bool false
  profile_created_at : Json := .null
  location : Json := .null
  website : Json := .null
  bio : Json := .null
  bugcrowd_handle : Json := .null
  hack_the_box_handle : Json := .null
  github_handle : Json := .null
  gitlab_handle : Json := .null
  linkedin_handle : Json := .null
  twitter_handle : Json := .null
  cleared : Json := .bool false
  verified : Json := .bool false
  open_for_employment : Json := .null
  mark_as_company_on_leaderboards : Json := .bool false
  resolved_report_count : Json := .num 0
  thanks_items_total_count : Json := .num 0
  badges_json : Json := .arr []
  public_reviews_json : Json := .arr []
  created_at : Option Nat := none

/-- `FinallyData.from_user_data` (src/db.py lines 62-101): build a
profile record from the raw `user` document, applying the `dict.get`
defaults of the source.  Note that `open_for_employment` is fetched
with `user_data.get('open_for_employment')`, whose default is `None`,
and that when `badges` (resp. `public_reviews`) is a dict its `edges`
value is taken verbatim, whatever it is. -/
def from_user_data (user_data : List (String × Json)) : FinallyData :=
  let badges := Json.dictGetD user_data "badges" (.obj [])
  let badges_json : Json :=
    match badges with
    | .obj fields => Json.dictGetD fields "edges" (.arr [])
    | _ => .arr []
  let public_reviews := Json.dictGetD user_data "public_reviews" (.obj [])
  let public_reviews_json : Json :=
    match public_reviews with
    | .obj fields => Json.dictGetD fields "edges" (.arr [])
    | _ => .arr []
  { username := Json.dictGetD user_data "username" (.str "")
    name := Json.dictGetD user_data "name" .null
    intro := Json.dictGetD user_data "intro" .null
    profileActivated := Json.dictGetD user_data "profileActivated" (.bool false)
    profile_created_at := Json.dictGetD user_data "created_at" .null
    location := Json.dictGetD user_data "location" .null
    website := Json.dictGetD user_data "website" .null
    bio := Json.dictGetD user_data "bio" .null
    bugcrowd_handle := Json.dictGetD user_data "bugcrowd_handle" .null
    hack_the_box_handle := Json.dictGetD user_data "hack_the_box_handle" .null
    github_handle := Json.dictGetD user_data "github_handle" .null
    gitlab_handle := Json.dictGetD user_data "gitlab_handle" .null
    linkedin_handle := Json.dictGetD user_data "linkedin_handle" .null
    twitter_handle := Json.dictGetD user_data "twitter_handle" .null
    cleared := Json.dictGetD user_data "cleared" (.bool false)
    verified := Json.dictGetD user_data "verified" (.bool false)
    open_for_employment := Json.dictGetD user_data "open_for_employment" .null
    mark_as_company_on_leaderboards :=
      Json.dictGetD user_data "mark_as_company_on_leaderboards" (.bool false)
    resolved_report_count := Json.dictGetD user_data "resolved_report_count" (.num 0)
    thanks_items_total_count := Json.dictGetD user_data "thanks_items_total_count" (.num 0)
    badges_json := badges_json
    public_reviews_json := public_reviews_json }

/-- `DataManager.process_nodes` (src/data_manager.py lines 8-18): for
each node evaluate `node['reporter']` (KeyError when the key is
missing, TypeError when the node is not a dict); a falsy reporter is
skipped; a truthy reporter yields one `PrimaryData` built from
`node['reporter']['username']`, `node['__typename']` and the whole
node.  Any raised error aborts the whole call, as in Python. -/
def process_nodes : List Json → Except PyErr (List PrimaryData)
  | [] => .ok []
  | node :: rest =>
    match node.subscript "reporter" with
    | .error e => .error e
    | .ok reporter =>
      if reporter.isTruthy then
        match reporter.subscript "username" with
        | .error e => .error e
        | .ok username =>
          match node.subscript "__typename" with
          | .error e => .error e
          | .ok source =>
            match process_nodes rest with
            | .error e => .error e
            | .ok tail => .ok (⟨none, username, source, node, none⟩ :: tail)
      else
        process_nodes rest

/-- `DataManager.process_profile` (src/data_manager.py lines 28-35):
`None` yields no record; a dict is normalized with `from_user_data`;
any other value makes `user_data.get(...)` raise `AttributeError`. -/
def process_profile : Json → Except PyErr (Option FinallyData)
  | .null => .ok none
  | .obj fields => .ok (some (from_user_data fields))
  | _ => .error .attributeError

/-- Parsed result of `datetime.fromisoformat` (only the six components
that `strftime('%Y-%m-%d %H:%M:%S')` renders; fractional seconds and
the UTC offset are validated during parsing but not retained, exactly
as the strftime output discards them). -/
structure PyDateTime where
  year : Nat
  month : Nat
  day : Nat
  hour : Nat
  minute : Nat
  second : Nat
  deriving DecidableEq

def parseDigit (c : Char) : Option Nat :=
  if c.isDigit then some (c.toNat - 48) else none

def parse2 : List Char → Option (Nat × List Char)
  | a :: b :: rest => do
    let x ← parseDigit a
    let y ← parseDigit b
    some (10 * x + y, rest)
  | _ => none

def parse4 : List Char → Option (Nat × List Char)
  | a :: b :: c :: d :: rest => do
    let x ← parseDigit a
    let y ← parseDigit b
    let z ← parseDigit c
    let w ← parseDigit d
    some (1000 * x + 100 * y + 10 * z + w, rest)
  | _ => none

def leapYear (y : Nat) : Bool :=
  y % 4 == 0 && (y % 100 != 0 || y % 400 == 0)

def daysInMonth (y m : Nat) : Nat :=
  if m == 2 then (if leapYear y then 29 else 28)
  else if m == 4 || m == 6 || m == 9 || m == 11 then 30
  else 31

/-- Date part: extended `YYYY-MM-DD` or basic `YYYYMMDD` (the year was
already consumed by the caller). -/
def parseMonthDay : List Char → Option (Nat × Nat × List Char)
  | '-' :: rest => do
    let (m, r1) ← parse2 rest
    match r1 with
    | '-' :: r2 => do
      let (d, r3) ← parse2 r2
      some (m, d, r3)
    | _ => none
  | cs => do
    let (m, r1) ← parse2 cs
    let (d, r2) ← parse2 r1
    some (m, d, r2)

/-- Time part `HH[:MM[:SS]]` (or the basic forms `HHMM`/`HHMMSS`);
returns the components, whether seconds were present (fractions are
only legal after seconds), and the remaining input. -/
def parseTime (cs : List Char) : Option (Nat × Nat × Nat × Bool × List Char) := do
  let (hh, r1) ← parse2 cs
  if hh > 23 then none else
  match r1 with
  | ':' :: r2 => do
    let (mm, r3) ← parse2 r2
    if mm > 59 then none else
    match r3 with
    | ':' :: r4 => do
      let (ss, r5) ← parse2 r4
      if ss > 59 then none else some (hh, mm, ss, true, r5)
    | _ => some (hh, mm, 0, false, r3)
  | c :: _ =>
    if c.isDigit then do
      let (mm, r3) ← parse2 r1
      if mm > 59 then none else
      match r3 with
      | c2 :: _ =>
        if c2.isDigit then do
          let (ss, r5) ← parse2 r3
          if ss > 59 then none else some (hh, mm, ss, true, r5)
        else some (hh, mm, 0, false, r3)
      | [] => some (hh, mm, 0, false, [])
    else some (hh, 0, 0, false, r1)
  | [] => some (hh, 0, 0, false, [])

/-- Optional fractional-seconds part `('.' | ',') digits`. -/
def parseFrac : List Char → Option (List Char)
  | c :: rest =>
    if c == '.' || c == ',' then
      match rest with
      | d :: _ => if d.isDigit then some (rest.dropWhile Char.isDigit) else none
      | [] => none
    else some (c :: rest)
  | [] => some []

/-- Optional UTC offset `('+' | '-') HH[:MM[:SS]]` or `±HHMM`, or a
bare `z`/`Z` suffix. -/
def parseOffset : List Char → Option (List Char)
  | [] => some []
  | c :: rest =>
    if c == '+' || c == '-' then do
      let (oh, r1) ← parse2 rest
      if oh > 23 then none else
      match r1 with
      | [] => some []
      | ':' :: r2 => do
        let (om, r3) ← parse2 r2
        if om > 59 then none else
        match r3 with
        | ':' :: r4 => do
          let (os, r5) ← parse2 r4
          if os > 59 then none else some r5
        | _ => some r3
      | d :: _ =>
        if d.isDigit then do
          let (om, r3) ← parse2 r1
          if om > 59 then none else some r3
        else some r1
    else if c == 'z' || c == 'Z' then
      if rest.isEmpty then some [] else none
    else some (c :: rest)

/-- `datetime.fromisoformat` (CPython 3.11+) restricted to the
calendar-date ISO-8601 forms: `YYYY-MM-DD` or `YYYYMMDD`, optionally
followed by a single separator character and a time
`HH[:MM[:SS[.ffffff]]]` (or the colon-free basic forms) with an
optional UTC offset.  Month, day (against the real calendar, leap
years included), hour, minute, second and offset ranges are validated;
year 0 is rejected (`datetime.MINYEAR` is 1).  Returns `none` where
Python raises `ValueError`. -/
def fromisoformat (cs : List Char) : Option PyDateTime := do
  let (y, r1) ← parse4 cs
  let (m, d, r3) ← parseMonthDay r1
  if y == 0 then none
  else if m < 1 || m > 12 then none
  else if d < 1 || d > daysInMonth y m then none
  else
    match r3 with
    | [] => some ⟨y, m, d, 0, 0, 0⟩
    | _sep :: r4 => do
      let (hh, mm, ss, hasSec, r5) ← parseTime r4
      let r6 ← if hasSec then parseFrac r5 else some r5
      let r7 ← parseOffset r6
      if r7.isEmpty then some ⟨y, m, d, hh, mm, ss⟩ else none

def digitChar (n : Nat) : Char := Char.ofNat (48 + n % 10)

/-- `dt.strftime('%Y-%m-%d %H:%M:%S')`: zero-padded fixed-width
rendering of the six components. -/
def renderDT (dt : PyDateTime) : String :=
  String.mk [digitChar (dt.year / 1000), digitChar (dt.year / 100),
             digitChar (dt.year / 10), digitChar dt.year, '-',
             digitChar (dt.month / 10), digitChar dt.month, '-',
             digitChar (dt.day / 10), digitChar dt.day, ' ',
             digitChar (dt.hour / 10), digitChar dt.hour, ':',
             digitChar (dt.minute / 10), digitChar dt.minute, ':',
             digitChar (dt.second / 10), digitChar dt.second]

/-- Model of `timestamp_str.replace('Z', '+00:00')`: replace every
occurrence of the character `Z`. -/
def replaceZ : List Char → List Char
  | [] => []
  | c :: rest =>
    if c == 'Z' then '+' :: '0' :: '0' :: ':' :: '0' :: '0' :: replaceZ rest
    else c :: replaceZ rest

/-- `DatabaseManager._parse_timestamp` (src/db.py lines 603-611):
falsy input returns `None`; a string is parsed with
`datetime.fromisoformat` after `'Z'`-replacement and re-rendered with
`strftime('%Y-%m-%d %H:%M:%S')`; any exception inside the `try`
(including the `AttributeError` from `.replace` on a truthy non-string)
returns `None`. -/
def _parse_timestamp (j : Json) : Option String :=
  if j.isTruthy then
    match j with
    | .str s => (fromisoformat (replaceZ s.toList)).map renderDT
    | _ => none
  else none

/-- One row of `primary_table` (src/db.py lines 152-160).  `id` is the
AUTOINCREMENT primary key, `created_at` the `CURRENT_TIMESTAMP`
default, modelled by a strictly monotone insertion counter. -/
structure PrimaryRow where
  id : Nat
  username : Json
  source : Json
  json_info : Json
  created_at : Nat

/-- One row of `finally_table` (src/db.py lines 162-189).
`profile_created_at` holds the `_parse_timestamp` output;
`badges_json` and `public_reviews_json` are TEXT columns holding
`json.dumps` output, modelled structurally by the serialized value. -/
structure FinallyRow where
  id : Nat
  username : Json
  name : Json
  intro : Json
  profileActivated : Json
  profile_created_at : Option String
  location : Json
  website : Json
  bio : Json
  bugcrowd_handle : Json
  hack_the_box_handle : Json
  github_handle : Json
  gitlab_handle : Json
  linkedin_handle : Json
  twitter_handle : Json
  cleared : Json
  verified : Json
  open_for_employment : Json
  mark_as_company_on_leaderboards : Json
  resolved_report_count : Json
  thanks_items_total_count : Json
  badges_json : Json
  public_reviews_json : Json
  created_at : Nat

/-- The SQLite database file: both tables in insertion (rowid) order,
the two AUTOINCREMENT counters, and the timestamp counter. -/
structure DB where
  primaryRows : List PrimaryRow
  finallyRows : List FinallyRow
  nextPrimaryId : Nat
  nextFinallyId : Nat
  clock : Nat

def emptyDB : DB := ⟨[], [], 1, 1, 0⟩

/-- Whether inserting this `PrimaryData` succeeds: `username` and
`source` must be bindable parameters and satisfy their NOT NULL
constraints (`json_info` is always a dumps string). -/
def primary_record_insertable (d : PrimaryData) : Bool :=
  d.username.bindable && !(d.username == Json.null) &&
  d.source.bindable && !(d.source == Json.null)

/-- `DatabaseManager.add_primary_record` (src/db.py lines 194-213):
unconditional INSERT returning the fresh rowid; a binding or
constraint failure is re-raised. -/
def add_primary_record (db : DB) (d : PrimaryData) : Except PyErr (Nat × DB) :=
  if primary_record_insertable d then
    .ok (db.nextPrimaryId,
      { db with
          primaryRows := db.primaryRows ++
            [⟨db.nextPrimaryId, d.username, d.source, d.json_info, db.clock⟩],
          nextPrimaryId := db.nextPrimaryId + 1,
          clock := db.clock + 1 })
  else .error .dbError

def insertCreatedDesc (r : PrimaryRow) : List PrimaryRow → List PrimaryRow
  | [] => [r]
  | x :: xs =>
    if r.created_at ≥ x.created_at then r :: x :: xs
    else x :: insertCreatedDesc r xs

/-- `ORDER BY created_at DESC` on `primary_table`. -/
def sortCreatedDesc : List PrimaryRow → List PrimaryRow
  | [] => []
  | r :: rest => insertCreatedDesc r (sortCreatedDesc rest)

/-- `DatabaseManager.get_all_primary_records` (src/db.py lines
257-275): `SELECT * FROM primary_table ORDER BY created_at DESC LIMIT
limit` (note: no DISTINCT), decoded back into `PrimaryData`. -/
def get_all_primary_records (db : DB) (limit : Nat) : List PrimaryData :=
  ((sortCreatedDesc db.primaryRows).take limit).map
    (fun r => ⟨some r.id, r.username, r.source, r.json_info, some r.created_at⟩)

/-- `DatabaseManager.update_primary_record` (src/db.py lines 277-292):
UPDATE by rowid; returns whether a row was changed, `false` on any
caught exception (binding or constraint failure). -/
def update_primary_record (db : DB) (record_id : Nat) (d : PrimaryData) : Bool × DB :=
  if db.primaryRows.any (fun r => r.id == record_id) then
    if primary_record_insertable d then
      (true,
        { db with primaryRows := db.primaryRows.map (fun r =>
            if r.id == record_id then
              { r with username := d.username, source := d.source, json_info := d.json_info }
            else r) })
    else (false, db)
  else (false, db)

/-- `FinallyData.from_db_row`, as called by every `finally_table` read
(src/db.py lines 370, 385, 398, 415): this classmethod is referenced
but never defined anywhere in the repository, so per Python semantics
the attribute lookup raises `AttributeError` on every row. -/
def from_db_row (_row : FinallyRow) : Except PyErr FinallyData :=
  .error .attributeError

/-- `DatabaseManager.get_finally_by_username` (src/db.py lines
376-389): SELECT by username (first matching row in rowid order), then
`FinallyData.from_db_row`; any exception is caught and `None`
returned. -/
def get_finally_by_username (db : DB) (username : Json) : Option FinallyData :=
  match db.finallyRows.find? (fun r => r.username == username) with
  | some row =>
    match from_db_row row with
    | .ok d => some d
    | .error _ => none
  | none => none

/-- `DatabaseManager.get_finally_by_id` (src/db.py lines 361-374):
same shape as the username lookup, keyed by rowid. -/
def get_finally_by_id (db : DB) (record_id : Nat) : Option FinallyData :=
  match db.finallyRows.find? (fun r => r.id == record_id) with
  | some row =>
    match from_db_row row with
    | .ok d => some d
    | .error _ => none
  | none => none

def insertFinallyCreatedDesc (r : FinallyRow) : List FinallyRow → List FinallyRow
  | [] => [r]
  | x :: xs =>
    if r.created_at ≥ x.created_at then r :: x :: xs
    else x :: insertFinallyCreatedDesc r xs

def sortFinallyCreatedDesc : List FinallyRow → List FinallyRow
  | [] => []
  | r :: rest => insertFinallyCreatedDesc r (sortFinallyCreatedDesc rest)

/-- `DatabaseManager.get_all_finally_records` (src/db.py lines
391-401): SELECT with ORDER BY/LIMIT, rows decoded with
`FinallyData.from_db_row`; any exception is caught and `[]`
returned. -/
def get_all_finally_records (db : DB) (limit : Nat) : List FinallyData :=
  match ((sortFinallyCreatedDesc db.finallyRows).take limit).mapM from_db_row with
  | .ok l => l
  | .error _ => []

def listStartsWith : List Char → List Char → Bool
  | [], _ => true
  | _ :: _, [] => false
  | a :: as, b :: bs => a == b && listStartsWith as bs

def listContainsSub (p : List Char) : List Char → Bool
  | [] => p.isEmpty
  | c :: rest => listStartsWith p (c :: rest) || listContainsSub p rest

/-- SQLite `column LIKE '%query%'`: case-insensitive (ASCII) substring
match on a text value; non-text values never match. -/
def likeContains (v : Json) (q : String) : Bool :=
  match v with
  | .str s => listContainsSub (q.toList.map Char.toLower) (s.toList.map Char.toLower)
  | _ => false

def finallyField (r : FinallyRow) (field : String) : Json :=
  if field == "name" then r.name
  else if field == "location" then r.location
  else if field == "github_handle" then r.github_handle
  else r.username

/-- `DatabaseManager.search_finally_records` (src/db.py lines
403-418): a field outside the allow-list `['username', 'name',
'location', 'github_handle']` is silently replaced by `'username'`;
matching rows are decoded with `FinallyData.from_db_row`; any
exception is caught and `[]` returned. -/
def search_finally_records (db : DB) (search_query : String) (field : String) :
    List FinallyData :=
  let f := if ["username", "name", "location", "github_handle"].contains field
           then field else "username"
  match (db.finallyRows.filter (fun r => likeContains (finallyField r f) search_query)).mapM
      from_db_row with
  | .ok l => l
  | .error _ => []

/-- Bindability of the 18 scalar parameters shared by the INSERT of
`add_finally_record` and the SET list of `update_finally_record`
(`profile_created_at` is passed through `_parse_timestamp`, and the
two sequence columns are dumps strings, so those three always
bind). -/
def FinallyData.scalarsBindable (d : FinallyData) : Bool :=
  d.name.bindable && d.intro.bindable && d.profileActivated.bindable &&
  d.location.bindable && d.website.bindable && d.bio.bindable &&
  d.bugcrowd_handle.bindable && d.hack_the_box_handle.bindable &&
  d.github_handle.bindable && d.gitlab_handle.bindable &&
  d.linkedin_handle.bindable && d.twitter_handle.bindable &&
  d.cleared.bindable && d.verified.bindable &&
  d.open_for_employment.bindable && d.mark_as_company_on_leaderboards.bindable &&
  d.resolved_report_count.bindable && d.thanks_items_total_count.bindable

/-- Whether inserting this `FinallyData` succeeds: all scalar
parameters bindable, plus the NOT NULL constraint on `username`. -/
def finally_record_insertable (d : FinallyData) : Bool :=
  d.scalarsBindable && d.username.bindable && !(d.username == Json.null)

/-- `DatabaseManager.add_finally_record` (src/db.py lines 308-359):
`None` data is answered with `None` and no insert; otherwise an
unconditional INSERT of the record (with `_parse_timestamp` applied to
`profile_created_at`) returning the fresh rowid; a binding or
constraint failure is re-raised. -/
def add_finally_record (db : DB) (data : Option FinallyData) :
    Except PyErr (Option Nat × DB) :=
  match data with
  | none => .ok (none, db)
  | some d =>
    if finally_record_insertable d then
      .ok (some db.nextFinallyId,
        { db with
            finallyRows := db.finallyRows ++
              [{ id := db.nextFinallyId, username := d.username, name := d.name,
                 intro := d.intro, profileActivated := d.profileActivated,
                 profile_created_at := _parse_timestamp d.profile_created_at,
                 location := d.location, website := d.website, bio := d.bio,
                 bugcrowd_handle := d.bugcrowd_handle,
                 hack_the_box_handle := d.hack_the_box_handle,
                 github_handle := d.github_handle, gitlab_handle := d.gitlab_handle,
                 linkedin_handle := d.linkedin_handle, twitter_handle := d.twitter_handle,
                 cleared := d.cleared, verified := d.verified,
                 open_for_employment := d.open_for_employment,
                 mark_as_company_on_leaderboards := d.mark_as_company_on_leaderboards,
                 resolved_report_count := d.resolved_report_count,
                 thanks_items_total_count := d.thanks_items_total_count,
                 badges_json := d.badges_json,
                 public_reviews_json := d.public_reviews_json,
                 created_at := db.clock }],
            nextFinallyId := db.nextFinallyId + 1,
            clock := db.clock + 1 })
    else .error .dbError

/-- `DatabaseManager.update_finally_record` (src/db.py lines 420-481):
UPDATE keyed by username, setting every column except `id`, `username`
and `created_at`; returns whether a row was changed, `false` on any
caught exception. -/
def update_finally_record (db : DB) (username : Json) (data : FinallyData) : Bool × DB :=
  if data.scalarsBindable && username.bindable then
    if db.finallyRows.any (fun r => r.username == username) then
      (true,
        { db with finallyRows := db.finallyRows.map (fun r =>
            if r.username == username then
              { r with name := data.name, intro := data.intro,
                       profileActivated := data.profileActivated,
                       profile_created_at := _parse_timestamp data.profile_created_at,
                       location := data.location, website := data.website, bio := data.bio,
                       bugcrowd_handle := data.bugcrowd_handle,
                       hack_the_box_handle := data.hack_the_box_handle,
                       github_handle := data.github_handle,
                       gitlab_handle := data.gitlab_handle,
                       linkedin_handle := data.linkedin_handle,
                       twitter_handle := data.twitter_handle,
                       cleared := data.cleared, verified := data.verified,
                       open_for_employment := data.open_for_employment,
                       mark_as_company_on_leaderboards :=
                         data.mark_as_company_on_leaderboards,
                       resolved_report_count := data.resolved_report_count,
                       thanks_items_total_count := data.thanks_items_total_count,
                       badges_json := data.badges_json,
                       public_reviews_json := data.public_reviews_json }
            else r) })
    else (false, db)
  else (false, db)

/-- `DatabaseManager.add_or_update_finally_record` (src/db.py lines
511-531): build the record with `from_user_data` (a non-dict argument
raises `AttributeError`, re-raised by the handler), look the username
up with `get_finally_by_username`, then either update (carrying the
existing `id` and `created_at` over) or insert. -/
def add_or_update_finally_record (db : DB) (user_data : Json) :
    Except PyErr (Option Nat × DB) :=
  match user_data with
  | .obj fields =>
    let data := from_user_data fields
    match get_finally_by_username db data.username with
    | some existing =>
      let data' := { data with id := existing.id, created_at := existing.created_at }
      let (updated, db') := update_finally_record db data'.username data'
      .ok (if updated then (existing.id, db') else (some 0, db'))
    | none => add_finally_record db (some data)
  | _ => .error .attributeError

/-- One iteration of the loop body of `profile_info_search`
(src/main.py lines 24-32).  `fetch` abstracts
`graphql_post_request(build_profile_info_query(username))`
(src/graphql_requests.py lines 6-23): it returns the decoded response
on HTTP 200 and `None` on any transport failure or non-200 status.
The loop body evaluates `response['data']['user']` — a `None` response
makes that subscription raise `TypeError` — then
`process_profile` and `add_finally_record`. -/
def enrichStep (fetch : Json → Option Json) (db : DB) (username : Json) :
    Except PyErr DB :=
  match fetch username with
  | none => .error .typeError
  | some response =>
    match response.subscript "data" with
    | .error e => .error e
    | .ok d =>
      match d.subscript "user" with
      | .error e => .error e
      | .ok user_data =>
        match process_profile user_data with
        | .error e => .error e
        | .ok processed =>
          match add_finally_record db processed with
          | .error e => .error e
          | .ok (_, db') => .ok db'

/-- The `for hunter in primary_data` loop of `profile_info_search`:
process usernames in order; the first uncaught exception aborts the
loop, leaving all previously committed writes in place. -/
def runEnrich (fetch : Json → Option Json) : DB → List Json → Option PyErr × DB
  | db, [] => (none, db)
  | db, u :: rest =>
    match enrichStep fetch db u with
    | .ok db' => runEnrich fetch db' rest
    | .error e => (some e, db)

/-- `profile_info_search` (src/main.py lines 21-32): read the staged
records with `get_all_primary_records()` (default limit 100, no
DISTINCT), then enrich each listed record's username in order. -/
def profile_info_search (fetch : Json → Option Json) (db : DB) : Option PyErr × DB :=
  runEnrich fetch db ((get_all_primary_records db 100).map (fun h => h.username))

/-- Well-formedness of one fetched response for the run theorems: the
`data`/`user` envelope is present, and the `user` value is either
`null` (profile absent) or a dict whose normalized record is
insertable. -/
def wfResp (response : Json) : Bool :=
  match response.subscript "data" with
  | .ok d =>
    match d.subscript "user" with
    | .ok .null => true
    | .ok (.obj fields) => finally_record_insertable (from_user_data fields)
    | _ => false
  | .error _ => false

/-- Every username in the list gets a well-formed response (in
particular, no transport failure). -/
def goodFetch (fetch : Json → Option Json) (usernames : List Json) : Bool :=
  usernames.all (fun u =>
    match fetch u with
    | some response => wfResp response
    | none => false)

/-- The username that enriching `u` writes to the Final Store (`none`
when the response carries no profile): the profile's own `username`
field after normalization. -/
def stepUser (fetch : Json → Option Json) (u : Json) : Option Json :=
  match fetch u with
  | some response =>
    match response.subscript "data" with
    | .ok d =>
      match d.subscript "user" with
      | .ok (.obj fields) => some (from_user_data fields).username
      | _ => none
    | .error _ => none
  | none => none

/-- The usernames of the Final Store rows that one enrichment pass
over `usernames` inserts: one per listed username whose response
carries a (non-null) profile, in listing order. -/
def enrichedUsernames (fetch : Json → Option Json) (usernames : List Json) : List Json :=
  usernames.filterMap (stepUser fetch)

/-- Number of `finally_table` rows carrying a given username. -/
def countUser (db : DB) (u : Json) : Nat :=
  db.finallyRows.countP (fun r => r.username == u)

/-- Strict monotonicity of the insertion timestamps along the table,
an invariant of every database produced by the embedded operations. -/
def clockSorted : List PrimaryRow → Bool
  | [] => true
  | [_] => true
  | a :: b :: rest => decide (a.created_at < b.created_at) && clockSorted (b :: rest)

/-- Nodes on which `process_nodes` does not raise: the `reporter` key
is present, and when its value is truthy it is a dict carrying
`username` while the node carries `__typename`. -/
def nodeOk (node : Json) : Bool :=
  match node.subscript "reporter" with
  | .ok reporter =>
    if reporter.isTruthy then
      (match reporter.subscript "username" with | .ok _ => true | .error _ => false) &&
      (match node.subscript "__typename" with | .ok _ => true | .error _ => false)
    else true
  | .error _ => false

/-- The record (if any) that `process_nodes` produces for one node
that does not raise: none for a falsy reporter, otherwise the
reporter's username, the node's type tag and the full node. -/
def extractNode (node : Json) : Option PrimaryData :=
  match node.subscript "reporter" with
  | .ok reporter =>
    if reporter.isTruthy then
      match reporter.subscript "username", node.subscript "__typename" with
      | .ok username, .ok source => some ⟨none, username, source, node, none⟩
      | _, _ => none
    else none
  | .error _ => none

/-- Concrete staged record used by the concrete scenarios. -/
def nodeFor (u : String) : PrimaryData :=
  ⟨none, .str u, .str "Activity", .obj [], none⟩

/-- Store with a single staged record for `bob`. -/
def dbB : DB :=
  match add_primary_record emptyDB (nodeFor "bob") with
  | .ok (_, d1) => d1
  | .error _ => emptyDB

/-- Store with staged records for `bob` then `alice` (so the
most-recent-first listing is `[alice, bob]`). -/
def dbBA : DB :=
  match add_primary_record emptyDB (nodeFor "bob") with
  | .ok (_, d1) =>
    match add_primary_record d1 (nodeFor "alice") with
    | .ok (_, d2) => d2
    | .error _ => emptyDB
  | .error _ => emptyDB

/-- Store with the identity `alice` staged twice. -/
def dbAA : DB :=
  match add_primary_record emptyDB (nodeFor "alice") with
  | .ok (_, d1) =>
    match add_primary_record d1 (nodeFor "alice") with
    | .ok (_, d2) => d2
    | .error _ => emptyDB
  | .error _ => emptyDB

/-- A well-formed profile response for `bob`. -/
def respBob : Json := .obj [("data", .obj [("user", .obj [("username", .str "bob")])])]

/-- Oracle that answers every profile query with `bob`'s profile. -/
def fetchBob (_ : Json) : Option Json := some respBob

/-- Oracle under which the transport fails (returns `None`) for
`alice` and succeeds for everyone else. -/
def fetchFailAlice (u : Json) : Option Json :=
  if u == Json.str "alice" then none else some respBob

/-- Raw profile document used against C8: `username` explicitly null,
`badges` a dict whose `edges` value is not a list,
`open_for_employment` absent. -/
def ud8 : List (String × Json) := [("username", .null), ("badges", .obj [("edges", .num 42)])]

/-- The raw profile document `{"username": "bob"}`. -/
def udBob : Json := .obj [("username", .str "bob")]

/-- Two successive upserts of the same raw profile document. -/
def upsertTwiceBob : Except PyErr (Option Nat × DB) :=
  match add_or_update_finally_record emptyDB udBob with
  | .ok (_, db1) => add_or_update_finally_record db1 udBob
  | .error e => .error e

lemma mapM_from_db_row_swallowed (rows : List FinallyRow) :
    (match rows.mapM from_db_row with
     | .ok l => l
     | .error _ => ([] : List FinallyData)) = [] := by
  cases rows with
  | nil => rfl
  | cons r rest => rfl

/-- C4: every Final Store read operation is total and never propagates
an exception: any internal failure during the query or during the
reconstruction of a stored row into a `FinallyData` is swallowed, and
the operation returns `none` (single-row lookups) or `[]` (listings
and searches).  In particular — since `FinallyData.from_db_row` is
undefined and its `AttributeError` is caught — `get_finally_by_username`
reports an identity whose row exists as absent rather than raising. -/
theorem finally_reads_total (db : DB) (u : Json) (record_id : Nat) (limit : Nat)
    (q field : String) :
    get_finally_by_username db u = none ∧
    get_finally_by_id db record_id = none ∧
    get_all_finally_records db limit = [] ∧
    search_finally_records db q field = [] := by
  refine ⟨?_, ?_, ?_, ?_⟩
  · unfold get_finally_by_username
    cases h : db.finallyRows.find? (fun r => r.username == u) <;> simp [h, from_db_row]
  · unfold get_finally_by_id
    cases h : db.finallyRows.find? (fun r => r.id == record_id) <;> simp [h, from_db_row]
  · unfold get_all_finally_records
    exact mapM_from_db_row_swallowed _
  · unfold search_finally_records
    exact mapM_from_db_row_swallowed _

/-- C10: for every query string and every field name outside the
allow-list `{username, name, location, github_handle}`, the search
operation silently falls back to username-substring search, returning
exactly what searching the `username` field returns. -/
theorem search_invalid_field_fallback (db : DB) (q field : String)
    (h : (["username", "name", "location", "github_handle"].contains field) = false) :
    search_finally_records db q field = search_finally_records db q "username" := by
  unfold search_finally_records
  rw [h]
  rfl

/-- Witness for `search_invalid_field_fallback` at the invalid field
name `bio`. -/
theorem search_invalid_field_fallback_witness :
    (["username", "name", "location", "github_handle"].contains "bio") = false ∧
    search_finally_records emptyDB "a" "bio" = search_finally_records emptyDB "a" "username" :=
  ⟨rfl, search_invalid_field_fallback emptyDB "a" "bio" rfl⟩

/-- C6 counterexample: the node `{}` carries no reporter information,
yet `process_nodes` does not skip it — `node['reporter']` raises
`KeyError` and the whole normalization aborts instead of producing no
record for that node. -/
theorem process_nodes_missing_reporter_key_raises :
    process_nodes [Json.obj []] = .error PyErr.keyError := rfl

/-- C6 (amended): for every sequence of nodes in which each node has a
`reporter` entry and, when that entry is truthy, it is a dict carrying
`username` while the node carries `__typename`, `process_nodes` skips
exactly the falsy-reporter nodes and produces exactly one
`PrimaryRecord` per remaining node — reporter's username as identity,
the node's `__typename` as origin, the full node as payload — in input
order, never merging two nodes; a node whose `reporter` key is absent
instead makes the call raise `KeyError`. -/
theorem process_nodes_normalizes (nodes : List Json) (h : nodes.all nodeOk = true) :
    process_nodes nodes = .ok (nodes.filterMap extractNode) := by
  induction nodes with
  | nil => rfl
  | cons node rest ih =>
    rw [List.all_cons, Bool.and_eq_true] at h
    obtain ⟨h1, h2⟩ := h
    unfold process_nodes
    rw [List.filterMap_cons]
    cases hr : node.subscript "reporter" with
    | error e => simp [nodeOk, hr] at h1
    | ok reporter =>
      by_cases ht : reporter.isTruthy = true
      · simp only [nodeOk, hr, ht, if_true, Bool.and_eq_true] at h1
        obtain ⟨hu, hs⟩ := h1
        cases hru : reporter.subscript "username" with
        | error e => rw [hru] at hu; exact absurd hu (by simp)
        | ok username =>
          cases hns : node.subscript "__typename" with
          | error e => rw [hns] at hs; exact absurd hs (by simp)
          | ok source =>
            simp [extractNode, hr, ht, hru, hns, ih h2]
      · simp [extractNode, hr, ht, ih h2]

/-- Activity-node list used as the witness input: one node with a null
(redacted) reporter, one well-formed node for `bob`. -/
def nodesBob : List Json :=
  [Json.obj [("reporter", .null)],
   Json.obj [("reporter", .obj [("username", .str "bob")]), ("__typename", .str "Activity")]]

/-- Witness for `process_nodes_normalizes` at `nodesBob`. -/
theorem process_nodes_normalizes_witness :
    nodesBob.all nodeOk = true ∧
    process_nodes nodesBob =
      .ok [⟨none, .str "bob", .str "Activity",
            .obj [("reporter", .obj [("username", .str "bob")]), ("__typename", .str "Activity")],
            none⟩] :=
  ⟨rfl, by rw [process_nodes_normalizes nodesBob rfl]; rfl⟩

/-- C7 counterexample: `update_primary_record` is a staging-store
operation that is neither a full clear nor a delete, yet it changes a
committed row in place — the single staged row of `dbB` has username
`bob` before the call and `eve` after it. -/
theorem update_primary_record_changes_committed_row :
    (dbB.primaryRows.map (fun r => r.username) == [Json.str "bob"]) = true ∧
    (update_primary_record dbB 1 (nodeFor "eve")).1 = true ∧
    ((update_primary_record dbB 1 (nodeFor "eve")).2.primaryRows.map (fun r => r.username)
      == [Json.str "eve"]) = true :=
  ⟨rfl, rfl, rfl⟩

/-- C7 (amended): `add_primary_record` is append-only and never
deduplicates — inserting the same `PrimaryData` twice appends two
fresh rows with distinct ids and distinct timestamps, leaving every
previously committed row untouched; the store does, however, also
expose `update_primary_record`, which overwrites a committed row in
place when called explicitly (see the counterexample), though no
pipeline stage invokes it. -/
theorem add_primary_record_append_only (db : DB) (d : PrimaryData)
    (h : primary_record_insertable d = true) :
    ∃ db1 db2,
      add_primary_record db d = .ok (db.nextPrimaryId, db1) ∧
      db1.primaryRows = db.primaryRows ++
        [⟨db.nextPrimaryId, d.username, d.source, d.json_info, db.clock⟩] ∧
      add_primary_record db1 d = .ok (db.nextPrimaryId + 1, db2) ∧
      db2.primaryRows = db.primaryRows ++
        [⟨db.nextPrimaryId, d.username, d.source, d.json_info, db.clock⟩,
         ⟨db.nextPrimaryId + 1, d.username, d.source, d.json_info, db.clock + 1⟩] ∧
      db.nextPrimaryId ≠ db.nextPrimaryId + 1 := by
  refine ⟨{ db with
              primaryRows := db.primaryRows ++
                [⟨db.nextPrimaryId, d.username, d.source, d.json_info, db.clock⟩],
              nextPrimaryId := db.nextPrimaryId + 1,
              clock := db.clock + 1 },
          { db with
              primaryRows := (db.primaryRows ++
                [⟨db.nextPrimaryId, d.username, d.source, d.json_info, db.clock⟩]) ++
                [⟨db.nextPrimaryId + 1, d.username, d.source, d.json_info, db.clock + 1⟩],
              nextPrimaryId := db.nextPrimaryId + 1 + 1,
              clock := db.clock + 1 + 1 },
          ?_, rfl, ?_, ?_, ?_⟩
  · simp [add_primary_record, h]
  · simp [add_primary_record, h]
  · simp
  · omega

/-- Witness for `add_primary_record_append_only` on the empty store. -/
theorem add_primary_record_append_only_witness :
    primary_record_insertable (nodeFor "bob") = true ∧
    ∃ db1 db2,
      add_primary_record emptyDB (nodeFor "bob") = .ok (emptyDB.nextPrimaryId, db1) ∧
      db1.primaryRows = emptyDB.primaryRows ++
        [⟨emptyDB.nextPrimaryId, (nodeFor "bob").username, (nodeFor "bob").source,
          (nodeFor "bob").json_info, emptyDB.clock⟩] ∧
      add_primary_record db1 (nodeFor "bob") = .ok (emptyDB.nextPrimaryId + 1, db2) ∧
      db2.primaryRows = emptyDB.primaryRows ++
        [⟨emptyDB.nextPrimaryId, (nodeFor "bob").username, (nodeFor "bob").source,
          (nodeFor "bob").json_info, emptyDB.clock⟩,
         ⟨emptyDB.nextPrimaryId + 1, (nodeFor "bob").username, (nodeFor "bob").source,
          (nodeFor "bob").json_info, emptyDB.clock + 1⟩] ∧
      emptyDB.nextPrimaryId ≠ emptyDB.nextPrimaryId + 1 :=
  ⟨rfl, add_primary_record_append_only emptyDB (nodeFor "bob") rfl⟩

/-- C8 counterexample: for the raw profile `ud8` (no
`open_for_employment` field, `badges` a dict whose `edges` value is
the number 42, `username` explicitly null) the normalizer leaves
`open_for_employment` absent rather than false, copies the malformed
`edges` value verbatim rather than defaulting to an empty sequence,
and the resulting record does not upsert successfully — the insert
raises on the NOT NULL `username` column. -/
theorem from_user_data_defaults_counterexample :
    (from_user_data ud8).open_for_employment = .null ∧
    (from_user_data ud8).open_for_employment ≠ .bool false ∧
    (from_user_data ud8).badges_json = .num 42 ∧
    (from_user_data ud8).badges_json ≠ .arr [] ∧
    add_or_update_finally_record emptyDB (.obj ud8) = .error .dbError :=
  ⟨rfl, fun hc => Json.noConfusion hc, rfl, fun hc => Json.noConfusion hc, rfl⟩

/-- C8 (amended): `from_user_data` fills the missing booleans
`profileActivated`, `cleared`, `verified` and
`mark_as_company_on_leaderboards` with false and the missing counts
with 0, while a missing `open_for_employment` defaults to absent
(null); a `badges`/`public_reviews` container that is absent or not a
dict yields an empty sequence, while a dict container contributes its
`edges` value verbatim (empty sequence only when the `edges` key is
missing); and the record upserts successfully whenever it satisfies
the store's binding and NOT NULL constraints (as every record whose
`username` is a string and whose remaining scalars are scalar values
does). -/
theorem from_user_data_defaults (ud : List (String × Json)) :
    (ud.find? (fun kv => kv.1 == "profileActivated") = none →
      (from_user_data ud).profileActivated = .bool false) ∧
    (ud.find? (fun kv => kv.1 == "cleared") = none →
      (from_user_data ud).cleared = .bool false) ∧
    (ud.find? (fun kv => kv.1 == "verified") = none →
      (from_user_data ud).verified = .bool false) ∧
    (ud.find? (fun kv => kv.1 == "mark_as_company_on_leaderboards") = none →
      (from_user_data ud).mark_as_company_on_leaderboards = .bool false) ∧
    (ud.find? (fun kv => kv.1 == "open_for_employment") = none →
      (from_user_data ud).open_for_employment = .null) ∧
    (ud.find? (fun kv => kv.1 == "resolved_report_count") = none →
      (from_user_data ud).resolved_report_count = .num 0) ∧
    (ud.find? (fun kv => kv.1 == "thanks_items_total_count") = none →
      (from_user_data ud).thanks_items_total_count = .num 0) ∧
    (ud.find? (fun kv => kv.1 == "badges") = none →
      (from_user_data ud).badges_json = .arr []) ∧
    (∀ b, ud.find? (fun kv => kv.1 == "badges") = some b →
      (from_user_data ud).badges_json =
        match b.2 with
        | .obj fields => Json.dictGetD fields "edges" (.arr [])
        | _ => .arr []) ∧
    (ud.find? (fun kv => kv.1 == "public_reviews") = none →
      (from_user_data ud).public_reviews_json = .arr []) ∧
    (∀ b, ud.find? (fun kv => kv.1 == "public_reviews") = some b →
      (from_user_data ud).public_reviews_json =
        match b.2 with
        | .obj fields => Json.dictGetD fields "edges" (.arr [])
        | _ => .arr []) ∧
    (finally_record_insertable (from_user_data ud) = true →
      (add_or_update_finally_record emptyDB (.obj ud)).map (fun p => p.1) = .ok (some 1)) := by
  refine ⟨?_, ?_, ?_, ?_, ?_, ?_, ?_, ?_, ?_, ?_, ?_, ?_⟩
  · intro h; simp [from_user_data, Json.dictGetD, h]
  · intro h; simp [from_user_data, Json.dictGetD, h]
  · intro h; simp [from_user_data, Json.dictGetD, h]
  · intro h; simp [from_user_data, Json.dictGetD, h]
  · intro h; simp [from_user_data, Json.dictGetD, h]
  · intro h; simp [from_user_data, Json.dictGetD, h]
  · intro h; simp [from_user_data, Json.dictGetD, h]
  · intro h; simp [from_user_data, Json.dictGetD, h]
  · intro b h; simp [from_user_data, Json.dictGetD, h]
  · intro h; simp [from_user_data, Json.dictGetD, h]
  · intro b h; simp [from_user_data, Json.dictGetD, h]
  · intro h
    simp [add_or_update_finally_record, get_finally_by_username, add_finally_record,
      emptyDB, h, Except.map]

/-- Witness for `from_user_data_defaults` at the empty raw profile. -/
theorem from_user_data_defaults_witness :
    (from_user_data []).profileActivated = .bool false ∧
    (from_user_data []).open_for_employment = .null ∧
    (from_user_data []).badges_json = .arr [] ∧
    (add_or_update_finally_record emptyDB (.obj [])).map (fun p => p.1) = .ok (some 1) :=
  ⟨(from_user_data_defaults []).1 rfl,
   (from_user_data_defaults []).2.2.2.2.1 rfl,
   (from_user_data_defaults []).2.2.2.2.2.2.2.1 rfl,
   (from_user_data_defaults []).2.2.2.2.2.2.2.2.2.2.2 rfl⟩

/-- Fixed `YYYY-MM-DD HH:MM:SS` shape: 19 characters, digits in the
component positions, the literal separators elsewhere. -/
def isFixedFormat (s : String) : Bool :=
  match s.toList with
  | [a, b, c, d, h1, e, f, h2, g, h, sp, i, j, c1, k, l, c2, m, n] =>
    a.isDigit && b.isDigit && c.isDigit && d.isDigit && h1 == '-' &&
    e.isDigit && f.isDigit && h2 == '-' && g.isDigit && h.isDigit &&
    sp == ' ' && i.isDigit && j.isDigit && c1 == ':' && k.isDigit && l.isDigit &&
    c2 == ':' && m.isDigit && n.isDigit
  | _ => false

lemma digitChar_isDigit (n : Nat) : (digitChar n).isDigit = true := by
  have h : n % 10 < 10 := Nat.mod_lt _ (by decide)
  have aux : ∀ k, k < 10 → (Char.ofNat (48 + k)).isDigit = true := by decide
  exact aux (n % 10) h

lemma renderDT_isFixedFormat (dt : PyDateTime) : isFixedFormat (renderDT dt) = true := by
  simp [isFixedFormat, renderDT, String.toList, digitChar_isDigit]

/-- C9: for every incoming profile timestamp string, `_parse_timestamp`
maps every string accepted by the `fromisoformat` model (after the `Z`
replacement) to its fixed `YYYY-MM-DD HH:MM:SS` rendering, maps every
string the model rejects — and the empty string — to absent (`None`),
and the outcome of the enclosing insert never depends on the
`profile_created_at` value, so an unparseable timestamp cannot fail
the upsert. -/
theorem parse_timestamp_normalizes (s : String) :
    (∀ dt, fromisoformat (replaceZ s.toList) = some dt →
      _parse_timestamp (Json.str s) = some (renderDT dt) ∧
      isFixedFormat (renderDT dt) = true) ∧
    (fromisoformat (replaceZ s.toList) = none → _parse_timestamp (Json.str s) = none) ∧
    _parse_timestamp (Json.str "") = none ∧
    (∀ db d v,
      (add_finally_record db (some { d with profile_created_at := v })).isOk =
        (add_finally_record db (some d)).isOk) := by
  refine ⟨?_, ?_, rfl, ?_⟩
  · intro dt h
    refine ⟨?_, renderDT_isFixedFormat dt⟩
    by_cases hs : s = ""
    · subst hs
      exact absurd h (by simp [replaceZ, fromisoformat, parse4])
    · have ht : (Json.str s).isTruthy = true := by
        simp [Json.isTruthy]
        exact hs
      simp only [_parse_timestamp, ht, if_true]
      rw [h]
      rfl
  · intro h
    by_cases hs : s = ""
    · subst hs; rfl
    · have ht : (Json.str s).isTruthy = true := by
        simp [Json.isTruthy]
        exact hs
      simp only [_parse_timestamp, ht, if_true]
      rw [h]
      rfl
  · intro db d v
    have hb : FinallyData.scalarsBindable { d with profile_created_at := v } =
        FinallyData.scalarsBindable d := rfl
    simp only [add_finally_record, finally_record_insertable, hb]
    by_cases hcond :
        (d.scalarsBindable && d.username.bindable && !(d.username == Json.null)) = true
    · rw [if_pos hcond, if_pos hcond]; rfl
    · rw [if_neg hcond, if_neg hcond]

/-- Witness for `parse_timestamp_normalizes` at the zone-suffixed
timestamp `2023-01-15T10:30:00Z`. -/
theorem parse_timestamp_normalizes_witness :
    _parse_timestamp (Json.str "2023-01-15T10:30:00Z") =
      some (renderDT ⟨2023, 1, 15, 10, 30, 0⟩) ∧
    isFixedFormat (renderDT ⟨2023, 1, 15, 10, 30, 0⟩) = true :=
  (parse_timestamp_normalizes "2023-01-15T10:30:00Z").1 ⟨2023, 1, 15, 10, 30, 0⟩ rfl

lemma enrichStep_good (fetch : Json → Option Json) (db : DB) (u : Json) (resp : Json)
    (h1 : fetch u = some resp) (h2 : wfResp resp = true) :
    ∃ db' rows,
      enrichStep fetch db u = .ok db' ∧
      db'.primaryRows = db.primaryRows ∧
      db'.finallyRows = db.finallyRows ++ rows ∧
      rows.map (fun r => r.username) = (stepUser fetch u).toList := by
  unfold enrichStep
  rw [h1]
  cases hd : resp.subscript "data" with
  | error e => simp [wfResp, hd] at h2
  | ok d =>
    cases hu : d.subscript "user" with
    | error e => simp [wfResp, hd, hu] at h2
    | ok user =>
      cases user with
      | null =>
        refine ⟨db, [], ?_, rfl, by simp, by simp [stepUser, h1, hd, hu]⟩
        simp [hd, hu, process_profile, add_finally_record]
      | bool b => simp [wfResp, hd, hu] at h2
      | num n => simp [wfResp, hd, hu] at h2
      | str s => simp [wfResp, hd, hu] at h2
      | arr elems => simp [wfResp, hd, hu] at h2
      | obj fields =>
        simp only [wfResp, hd, hu] at h2
        simp only [hd, hu, process_profile, add_finally_record, h2, if_true]
        refine ⟨_, [_], rfl, rfl, rfl, ?_⟩
        simp [stepUser, h1, hd, hu]

lemma runEnrich_good (fetch : Json → Option Json) (us : List Json) :
    ∀ db : DB, goodFetch fetch us = true →
      (runEnrich fetch db us).1 = none ∧
      (runEnrich fetch db us).2.primaryRows = db.primaryRows ∧
      ∃ rows, (runEnrich fetch db us).2.finallyRows = db.finallyRows ++ rows ∧
        rows.map (fun r => r.username) = enrichedUsernames fetch us := by
  induction us with
  | nil =>
    intro db h
    exact ⟨rfl, rfl, [], by rw [List.append_nil]; rfl, rfl⟩
  | cons u rest ih =>
    intro db h
    unfold goodFetch at h
    rw [List.all_cons, Bool.and_eq_true] at h
    obtain ⟨hu, hrest⟩ := h
    cases hf : fetch u with
    | none => rw [hf] at hu; exact absurd hu (by simp)
    | some resp =>
      simp only [hf] at hu
      obtain ⟨db', rows1, hstep, hprim, hfin, hmap⟩ := enrichStep_good fetch db u resp hf hu
      unfold runEnrich
      simp only [hstep]
      obtain ⟨e1, e2, rows2, hfin2, hmap2⟩ := ih db' hrest
      refine ⟨e1, ?_, rows1 ++ rows2, ?_, ?_⟩
      · rw [e2, hprim]
      · rw [hfin2, hfin, List.append_assoc]
      · rw [List.map_append, hmap, hmap2]
        unfold enrichedUsernames
        rw [List.filterMap_cons]
        cases hsu : stepUser fetch u <;> simp [hsu]

/-- C1 (amended): stage 2 writes each successfully fetched profile to
the Final Store through the plain insert `add_finally_record`, not the
upsert: whenever every listed fetch is well-formed, the run only ever
appends rows — the pre-existing rows survive untouched — and the
number of rows per identity grows by the number of listed records
whose fetched profile carries that identity.  In particular,
re-enriching an already-present identity adds a second row for it
instead of updating the existing one (see the counterexample). -/
theorem enrich_run_appends_rows (db : DB) (fetch : Json → Option Json) (u : Json)
    (h : goodFetch fetch ((get_all_primary_records db 100).map (fun r => r.username)) = true) :
    (∃ rows, (profile_info_search fetch db).2.finallyRows = db.finallyRows ++ rows) ∧
    countUser (profile_info_search fetch db).2 u =
      countUser db u +
        (enrichedUsernames fetch
          ((get_all_primary_records db 100).map (fun r => r.username))).countP
          (fun w => w == u) := by
  obtain ⟨h1, h2, rows, h3, h4⟩ := runEnrich_good fetch _ db h
  refine ⟨⟨rows, h3⟩, ?_⟩
  unfold countUser profile_info_search
  rw [h3, List.countP_append]
  congr 1
  rw [← h4, List.countP_map]
  rfl

/-- C1 counterexample: with `bob` staged once and a well-formed remote
profile, the first enrichment run leaves one Final Store row for
`bob`, and a second run over the same staged identity leaves two rows
for `bob` — the identity-uniqueness invariant claimed for repeated
stage-2 runs does not hold, because stage 2 inserts instead of
upserting. -/
theorem enrich_rerun_duplicates_identity :
    countUser (profile_info_search fetchBob dbB).2 (.str "bob") = 1 ∧
    (profile_info_search fetchBob (profile_info_search fetchBob dbB).2).1 = none ∧
    countUser (profile_info_search fetchBob (profile_info_search fetchBob dbB).2).2
      (.str "bob") = 2 :=
  ⟨rfl, rfl, rfl⟩

/-- Witness for `enrich_run_appends_rows` on the store with `bob`
staged once and the always-succeeding oracle. -/
theorem enrich_run_appends_rows_witness :
    goodFetch fetchBob ((get_all_primary_records dbB 100).map (fun r => r.username)) = true ∧
    countUser (profile_info_search fetchBob dbB).2 (.str "bob") =
      countUser dbB (.str "bob") +
        (enrichedUsernames fetchBob
          ((get_all_primary_records dbB 100).map (fun r => r.username))).countP
          (fun w => w == .str "bob") :=
  ⟨rfl, (enrich_run_appends_rows dbB fetchBob (.str "bob") rfl).2⟩

/-- C3 (amended): in stage 2 an absent profile for one identity causes
that identity to be skipped and the stage to continue: whenever every
listed fetch returns a well-formed response (no transport failure),
the run completes without an exception and writes exactly one row per
listed record whose response carries a profile, in order.  A transport
failure, however, is not skipped: `response['data']` raises
`TypeError` on the `None` response and aborts the stage at that
identity, leaving only the earlier writes committed (see the
counterexample). -/
theorem enrich_run_completes_and_skips_absent (db : DB) (fetch : Json → Option Json)
    (h : goodFetch fetch ((get_all_primary_records db 100).map (fun r => r.username)) = true) :
    (profile_info_search fetch db).1 = none ∧
    ∃ rows, (profile_info_search fetch db).2.finallyRows = db.finallyRows ++ rows ∧
      rows.map (fun r => r.username) =
        enrichedUsernames fetch ((get_all_primary_records db 100).map (fun r => r.username)) := by
  obtain ⟨h1, h2, rows, h3, h4⟩ := runEnrich_good fetch _ db h
  exact ⟨h1, rows, h3, h4⟩

/-- C3 counterexample: over the staged identities `[alice, bob]`
(listing order) with a transport failure for `alice` and a well-formed
profile for `bob`, the claimed outcome — one Final Store row for
`bob`, no exception — does not occur: the run aborts with `TypeError`
at `alice` and the Final Store stays empty, so `bob` is never
enriched. -/
theorem enrich_run_transport_failure_aborts :
    ((get_all_primary_records dbBA 100).map (fun r => r.username)
      == [Json.str "alice", Json.str "bob"]) = true ∧
    (profile_info_search fetchFailAlice dbBA).1 = some PyErr.typeError ∧
    (profile_info_search fetchFailAlice dbBA).2.finallyRows.length = 0 :=
  ⟨rfl, rfl, rfl⟩

/-- Witness for `enrich_run_completes_and_skips_absent` on the store
with `bob` staged once and the always-succeeding oracle. -/
theorem enrich_run_completes_witness :
    goodFetch fetchBob ((get_all_primary_records dbB 100).map (fun r => r.username)) = true ∧
    (profile_info_search fetchBob dbB).1 = none :=
  ⟨rfl, (enrich_run_completes_and_skips_absent dbB fetchBob rfl).1⟩

lemma clockSorted_cons (a : PrimaryRow) (l : List PrimaryRow)
    (h : clockSorted (a :: l) = true) :
    clockSorted l = true ∧ ∀ y ∈ l, a.created_at < y.created_at := by
  induction l generalizing a with
  | nil => exact ⟨rfl, by intro y hy; cases hy⟩
  | cons b m ih =>
    unfold clockSorted at h
    rw [Bool.and_eq_true] at h
    obtain ⟨hab, hbm⟩ := h
    obtain ⟨_, hball⟩ := ih b hbm
    refine ⟨hbm, ?_⟩
    intro y hy
    rcases List.mem_cons.mp hy with hy' | hy'
    · subst hy'; exact of_decide_eq_true hab
    · exact Nat.lt_trans (of_decide_eq_true hab) (hball y hy')

lemma insertCreatedDesc_eq_append (r : PrimaryRow) (l : List PrimaryRow)
    (h : ∀ y ∈ l, r.created_at < y.created_at) : insertCreatedDesc r l = l ++ [r] := by
  induction l with
  | nil => rfl
  | cons x xs ih =>
    have hx : r.created_at < x.created_at := h x (List.mem_cons_self x xs)
    unfold insertCreatedDesc
    rw [if_neg (by omega)]
    rw [ih (fun y hy => h y (List.mem_cons_of_mem x hy))]
    rfl

lemma sortCreatedDesc_eq_reverse (l : List PrimaryRow) (h : clockSorted l = true) :
    sortCreatedDesc l = l.reverse := by
  induction l with
  | nil => rfl
  | cons a m ih =>
    obtain ⟨hm, hball⟩ := clockSorted_cons a m h
    unfold sortCreatedDesc
    rw [ih hm, insertCreatedDesc_eq_append a m.reverse
      (fun y hy => hball y (List.mem_reverse.mp hy)), List.reverse_cons]

lemma listing_most_recent_first (db : DB) (limit : Nat)
    (h : clockSorted db.primaryRows = true) :
    (get_all_primary_records db limit).map (fun r => r.username) =
      ((db.primaryRows.reverse).take limit).map (fun r => r.username) := by
  unfold get_all_primary_records
  rw [sortCreatedDesc_eq_reverse db.primaryRows h, List.map_map]
  rfl

/-- C5 (amended): the listing that drives stage 2 returns the username
of every staged record — duplicates included, no DISTINCT — ordered
most-recently-created first and capped at the given limit (stage 2
uses the default limit of 100), and stage 2 processes each record of
that listing exactly once, so an identity staged twice within the cap
is processed twice (see the counterexample). -/
theorem stage2_listing_with_duplicates (db : DB) (limit : Nat) (fetch : Json → Option Json)
    (h : clockSorted db.primaryRows = true) :
    (get_all_primary_records db limit).map (fun r => r.username) =
      ((db.primaryRows.reverse).take limit).map (fun r => r.username) ∧
    profile_info_search fetch db =
      runEnrich fetch db (((db.primaryRows.reverse).take 100).map (fun r => r.username)) := by
  refine ⟨listing_most_recent_first db limit h, ?_⟩
  unfold profile_info_search
  rw [listing_most_recent_first db 100 h]

/-- C5 counterexample: with the identity `alice` staged twice, the
listing that drives stage 2 contains `alice` twice — it is not a
sequence of distinct identities and stage 2 does not process each
distinct identity exactly once. -/
theorem stage2_listing_not_distinct :
    (get_all_primary_records dbAA 100).length = 2 ∧
    (((get_all_primary_records dbAA 100).map (fun r => r.username)).all
      (fun u => u == Json.str "alice")) = true :=
  ⟨rfl, rfl⟩

/-- Witness for `stage2_listing_with_duplicates` on the two-identity
store `dbBA`. -/
theorem stage2_listing_with_duplicates_witness :
    clockSorted dbBA.primaryRows = true ∧
    (get_all_primary_records dbBA 100).map (fun r => r.username) =
      ((dbBA.primaryRows.reverse).take 100).map (fun r => r.username) :=
  ⟨rfl, (stage2_listing_with_duplicates dbBA 100 fetchBob rfl).1⟩

/-- C2 (code bug): upserting the same raw profile `{"username":
"bob"}` twice does not update the existing row while preserving its
key — the first call inserts row 1, and the second call, instead of
returning the stable key 1, inserts a second row and returns the new
key 2, leaving two `bob` rows.  The update branch of
`add_or_update_finally_record` is unreachable because
`get_finally_by_username` always reports the identity as absent: the
row reconstruction calls the undefined classmethod
`FinallyData.from_db_row`, and the resulting `AttributeError` is
swallowed into `None`. -/
theorem upsert_existing_row_not_updated :
    (add_or_update_finally_record emptyDB udBob).map
      (fun p => (p.1, p.2.finallyRows.length)) = .ok (some 1, 1) ∧
    upsertTwiceBob.map
      (fun p => (p.1, p.2.finallyRows.length, countUser p.2 (.str "bob"))) =
      .ok (some 2, 2, 2) :=
  ⟨rfl, rfl⟩
